import Mathlib

/-!
Shallow embedding of the OmegaAI chat widget
(`src/chatbot_frontend/src/ChatBot.jsx`).

The component keeps five pieces of React state (`sessionId`, `messages`,
`input`, `loading`, `isOpen`), acquires a session once on mount, and
exchanges messages with a backend over two endpoints
(`POST /session/start`, `POST /smart`).  We embed that state as a Lean
structure and the event handlers as pure transition functions; network
responses are passed in explicitly as values of a result type, and the
requests a handler issues are returned alongside the new state.

JavaScript `undefined` (a missing JSON field) is modelled as `none` of an
`Option String`, and JSON response bodies as association lists from field
names to string values.  Truthiness tests on strings (`!input.trim()`,
`!sessionId`) are embedded explicitly: the empty string is falsy.
-/

namespace ChatBot

/-- The `msg.sender` field is either `"user"` or `"bot"` in the source. -/
inductive Sender where
  | user
  | bot
deriving DecidableEq, Repr

/-- A transcript entry `{ sender, text }`.  `text` is `Option String`
because `data.reply` may be absent (`undefined`) in a parsed response. -/
structure Message where
  sender : Sender
  text : Option String
deriving DecidableEq, Repr

/-- The React state of the `ChatBot` component: `sessionId`, `messages`,
`input`, `loading`, `isOpen` (the `chatEndRef` is presentation-only). -/
structure WidgetState where
  sessionId : Option String
  messages : List Message
  input : String
  loading : Bool
  isOpen : Bool
deriving DecidableEq, Repr

/-- The greeting seeded into `useState` for `messages`. -/
def greetingText : String := "Hello! I\x27m OmegaAI. How can I help you today?"

/-- The initial bot message `{ sender: "bot", text: greeting }`. -/
def greetingMsg : Message := ⟨Sender.bot, some greetingText⟩

/-- The initial component state: `sessionId = null`, transcript holding
only the greeting, empty input, not loading, closed. -/
def initialState : WidgetState :=
  ⟨none, [greetingMsg], "", false, false⟩

/-- The fixed fallback bot text appended in the `catch` branch of
`sendMessage`. -/
def fallbackText : String := "⚠️ I couldn\x27t connect to the server."

/-- Outcome of `fetch(...)` followed by `res.json()`: either a parsed JSON
object (an association list of string fields, `ok`), or a network or
body-parse failure that lands in the `catch` block (`err`).  Note the code
never inspects `res.ok`, so an HTTP error status with a JSON body is still
`ok`. -/
inductive FetchResult where
  | ok (body : List (String × String))
  | err
deriving DecidableEq, Repr

/-- A `POST /smart` request body `JSON.stringify({ message, session_id })`. -/
structure SmartRequest where
  message : String
  session_id : String
deriving DecidableEq, Repr

/-- JavaScript `String.prototype.trim`: strip leading and trailing
whitespace characters.  Defined by structural recursion over the
character list so that it evaluates on concrete inputs. -/
def jsTrim (s : String) : String :=
  String.mk (((s.data.dropWhile Char.isWhitespace).reverse.dropWhile
    Char.isWhitespace).reverse)

/-- JavaScript truthiness of the `sessionId` state as tested by
`!sessionId` on line 36: `null`/`undefined` and the empty string are
falsy, every other string is truthy. -/
def sessionPresent : Option String → Bool
  | none => false
  | some sid => !(sid == "")

/-- The guard on line 36: `if (!input.trim() || loading || !sessionId)
return;`. -/
def sendBlocked (s : WidgetState) : Bool :=
  (jsTrim s.input) == "" || s.loading || !(sessionPresent s.sessionId)

/-- The synchronous prefix of `sendMessage`, executed before the response
arrives: the guard, then the optimistic append of
`{ sender: "user", text: input.trim() }`, `setLoading(true)`,
`setInput("")`, and the single `fetch` to `/smart` with body
`{ message: userMsg.text, session_id: sessionId }`.  Returns the new state
together with the list of requests issued (empty when the guard fires,
exactly one otherwise). -/
def sendStart (s : WidgetState) : WidgetState × List SmartRequest :=
  if sendBlocked s then (s, [])
  else
    match s.sessionId with
    | none => (s, [])
    | some sid =>
      let userMsg : Message := ⟨Sender.user, some (jsTrim s.input)⟩
      ({ s with messages := s.messages ++ [userMsg],
                loading := true,
                input := "" },
       [⟨(jsTrim s.input), sid⟩])

/-- The continuation of `sendMessage` once the `/smart` call resolves:
on a parsed body, append `{ sender: "bot", text: data.reply }` (the field
lookup may yield `undefined`); in the `catch` branch, append the fixed
fallback message; in both cases `setLoading(false)` runs afterwards. -/
def sendFinish (s : WidgetState) (r : FetchResult) : WidgetState :=
  let s' :=
    match r with
    | FetchResult.ok body =>
        { s with messages := s.messages ++ [Message.mk Sender.bot (body.lookup "reply")] }
    | FetchResult.err =>
        { s with messages := s.messages ++ [Message.mk Sender.bot (some fallbackText)] }
  { s' with loading := false }

/-- The whole `sendMessage` handler for one exchange, parametrised by the
outcome of its single `/smart` call.  Returns the final state and the
requests issued. -/
def sendMessage (s : WidgetState) (r : FetchResult) : WidgetState × List SmartRequest :=
  if sendBlocked s then (s, [])
  else
    let p := sendStart s
    (sendFinish p.1 r, p.2)

/-- The `startSession` effect body: on a parsed `/session/start` response
run `setSessionId(data.session_id)` (the field may be absent, storing
`undefined`); on failure only `console.error` runs, so the state is
untouched. -/
def startSession (s : WidgetState) (r : FetchResult) : WidgetState :=
  match r with
  | FetchResult.ok body => { s with sessionId := body.lookup "session_id" }
  | FetchResult.err => s

/-- The widget state right after mount: the session-start `useEffect` has
an empty dependency list and `sessionId` starts as `null`, so
`startSession` runs exactly once, from `initialState`. -/
def initWidget (r : FetchResult) : WidgetState :=
  startSession initialState r

/-- One click on the open bubble/button (`setIsOpen(true)`, reachable only
while closed) or on the minimize button (`setIsOpen(false)`, reachable
only while open): either way the visibility flag flips. -/
def toggleOpen (s : WidgetState) : WidgetState :=
  { s with isOpen := !s.isOpen }

/-- User-driven events after mount: toggling visibility, or submitting a
message whose `/smart` call has the given outcome. -/
inductive Event where
  | toggle
  | send (r : FetchResult)

/-- The state transition for one event. -/
def step (s : WidgetState) : Event → WidgetState
  | Event.toggle => toggleOpen s
  | Event.send r => (sendMessage s r).1

/-- Run a sequence of events from a state. -/
def run (s : WidgetState) : List Event → WidgetState
  | [] => s
  | e :: es => run (step s e) es

/-- A concrete state used to instantiate the theorems below: a session is
established, the draft reads `"hello"`, nothing is in flight. -/
def demoState : WidgetState :=
  ⟨some "abc", [greetingMsg], "hello", false, false⟩

/-! ### Helper lemmas -/

/-- Unpacking the guard: `sendMessage` is not blocked exactly when the
trimmed draft is non-empty, the widget is not loading, and the session id
is truthy. -/
theorem sendBlocked_false_iff (s : WidgetState) :
    sendBlocked s = false ↔
      ((jsTrim s.input) ≠ "" ∧ s.loading = false ∧ sessionPresent s.sessionId = true) := by
  simp [sendBlocked, and_assoc]

/-- A truthy session id is a concrete non-empty string. -/
theorem sessionPresent_some (o : Option String) (h : sessionPresent o = true) :
    ∃ sid, o = some sid ∧ sid ≠ "" := by
  cases o with
  | none => simp [sessionPresent] at h
  | some sid =>
    refine ⟨sid, rfl, ?_⟩
    simpa [sessionPresent] using h

/-- When the guard does not fire, `sendStart` performs the optimistic
update and issues the single `/smart` request. -/
theorem sendStart_not_blocked (s : WidgetState) (sid : String)
    (h : sendBlocked s = false) (hs : s.sessionId = some sid) :
    sendStart s =
      ({ s with messages := s.messages ++ [Message.mk Sender.user (some (jsTrim s.input))],
                loading := true, input := "" },
       [SmartRequest.mk (jsTrim s.input) sid]) := by
  simp [sendStart, h, hs]

/-- When the guard does not fire, `sendMessage` is `sendFinish` applied to
the optimistic state, together with the single request. -/
theorem sendMessage_not_blocked (s : WidgetState) (sid : String)
    (h : sendBlocked s = false) (hs : s.sessionId = some sid) (r : FetchResult) :
    sendMessage s r =
      (sendFinish
        { s with messages := s.messages ++ [Message.mk Sender.user (some (jsTrim s.input))],
                 loading := true, input := "" } r,
       [SmartRequest.mk (jsTrim s.input) sid]) := by
  simp [sendMessage, h, sendStart_not_blocked s sid h hs]

/-- When the guard fires, `sendMessage` returns the state unchanged and
issues no request. -/
theorem sendMessage_blocked (s : WidgetState) (h : sendBlocked s = true)
    (r : FetchResult) : sendMessage s r = (s, []) := by
  simp [sendMessage, h]

/-- The optimistic half of a send leaves the previous transcript as a
prefix. -/
theorem sendStart_messages_grows (s : WidgetState) :
    s.messages <+: (sendStart s).1.messages := by
  by_cases h : sendBlocked s
  · simp [sendStart, h]
  · obtain ⟨-, -, hp⟩ := (sendBlocked_false_iff s).1 (by simpa using h)
    obtain ⟨sid, hs, -⟩ := sessionPresent_some _ hp
    rw [sendStart_not_blocked s sid (by simpa using h) hs]
    simp

/-- Every step leaves the previous transcript as a prefix. -/
theorem step_messages_grows (s : WidgetState) (e : Event) :
    s.messages <+: (step s e).messages := by
  cases e with
  | toggle => simp [step, toggleOpen]
  | send r =>
    by_cases h : sendBlocked s
    · simp [step, sendMessage_blocked s h r]
    · obtain ⟨-, -, hp⟩ := (sendBlocked_false_iff s).1 (by simpa using h)
      obtain ⟨sid, hs, -⟩ := sessionPresent_some _ hp
      cases r with
      | ok body =>
        simp [step, sendMessage_not_blocked s sid (by simpa using h) hs, sendFinish,
          List.append_assoc]
      | err =>
        simp [step, sendMessage_not_blocked s sid (by simpa using h) hs, sendFinish,
          List.append_assoc]

/-- No step changes the session id: `setSessionId` is only called from
`startSession`. -/
theorem step_sessionId (s : WidgetState) (e : Event) :
    (step s e).sessionId = s.sessionId := by
  cases e with
  | toggle => simp [step, toggleOpen]
  | send r =>
    by_cases h : sendBlocked s
    · simp [step, sendMessage_blocked s h r]
    · obtain ⟨-, -, hp⟩ := (sendBlocked_false_iff s).1 (by simpa using h)
      obtain ⟨sid, hs, -⟩ := sessionPresent_some _ hp
      cases r with
      | ok body =>
        simp [step, sendMessage_not_blocked s sid (by simpa using h) hs, sendFinish]
      | err =>
        simp [step, sendMessage_not_blocked s sid (by simpa using h) hs, sendFinish]

/-- The session id is invariant under any run of post-mount events. -/
theorem run_sessionId (es : List Event) (s : WidgetState) :
    (run s es).sessionId = s.sessionId := by
  induction es generalizing s with
  | nil => rfl
  | cons e es ih => rw [run, ih, step_sessionId]

/-- The first transcript entry survives every step. -/
theorem step_head (s : WidgetState) (e : Event) (m : Message)
    (h : s.messages.head? = some m) : (step s e).messages.head? = some m := by
  obtain ⟨t, ht⟩ := step_messages_grows s e
  rw [← ht]
  cases hm : s.messages with
  | nil => rw [hm] at h; simp at h
  | cons a l => rw [hm] at h; simpa using h

/-- The first transcript entry survives every run of post-mount events. -/
theorem run_head (es : List Event) (s : WidgetState) (m : Message)
    (h : s.messages.head? = some m) : (run s es).messages.head? = some m := by
  induction es generalizing s with
  | nil => exact h
  | cons e es ih => exact ih (step s e) (step_head s e m h)

/-! ### Claim theorems -/

/-- C1: with draft `"hello"`, a present session id and `loading = false`,
a `sendMessage` whose `/smart` call succeeds with body `{reply:"hi"}`
leaves the transcript ending with `[user:"hello", bot:"hi"]` in that
order, and `isLoading` is false after the call. -/
theorem C1_send_success_hello_hi (s : WidgetState)
    (h1 : s.input = "hello") (h2 : s.loading = false)
    (h3 : sessionPresent s.sessionId = true) :
    (sendMessage s (FetchResult.ok [("reply", "hi")])).1.messages =
      s.messages ++ [Message.mk Sender.user (some "hello"),
                     Message.mk Sender.bot (some "hi")] ∧
    (sendMessage s (FetchResult.ok [("reply", "hi")])).1.loading = false := by
  obtain ⟨sid, hs, -⟩ := sessionPresent_some _ h3
  have hb : sendBlocked s = false := by
    rw [sendBlocked_false_iff]
    exact ⟨by rw [h1]; decide, h2, h3⟩
  rw [sendMessage_not_blocked s sid hb hs]
  constructor
  · simp [sendFinish, h1, List.lookup]
    decide
  · simp [sendFinish]

/-- C1 witness: the theorem applied at `demoState`. -/
theorem C1_send_success_hello_hi_witness :
    (sendMessage demoState (FetchResult.ok [("reply", "hi")])).1.messages =
      demoState.messages ++ [Message.mk Sender.user (some "hello"),
                             Message.mk Sender.bot (some "hi")] ∧
    (sendMessage demoState (FetchResult.ok [("reply", "hi")])).1.loading = false :=
  C1_send_success_hello_hi demoState rfl rfl (by decide)

/-- C2: when the preconditions hold and the `/smart` call fails (network
or body-parse error), the transcript ends with exactly one appended bot
message carrying the fixed fallback text, exactly one request was issued
(no retry), and `isLoading` is false after the call. -/
theorem C2_send_failure_fallback (s : WidgetState)
    (h : sendBlocked s = false) :
    (sendMessage s FetchResult.err).1.messages =
      s.messages ++ [Message.mk Sender.user (some (jsTrim s.input)),
                     Message.mk Sender.bot (some fallbackText)] ∧
    (sendMessage s FetchResult.err).1.loading = false ∧
    (sendMessage s FetchResult.err).2.length = 1 := by
  obtain ⟨-, -, hp⟩ := (sendBlocked_false_iff s).1 h
  obtain ⟨sid, hs, -⟩ := sessionPresent_some _ hp
  rw [sendMessage_not_blocked s sid h hs]
  refine ⟨?_, ?_, ?_⟩
  · simp [sendFinish]
  · simp [sendFinish]
  · simp

/-- C2 witness: the theorem applied at `demoState`. -/
theorem C2_send_failure_fallback_witness :
    (sendMessage demoState FetchResult.err).1.messages =
      demoState.messages ++ [Message.mk Sender.user (some (jsTrim demoState.input)),
                             Message.mk Sender.bot (some fallbackText)] ∧
    (sendMessage demoState FetchResult.err).1.loading = false ∧
    (sendMessage demoState FetchResult.err).2.length = 1 :=
  C2_send_failure_fallback demoState (by decide)

/-- C3: when the trimmed draft is empty, or the widget is loading, or the
session id is absent, `sendMessage` is a silent no-op regardless of the
network outcome: the whole state is returned unchanged and no request is
issued. -/
theorem C3_precondition_noop (s : WidgetState) (r : FetchResult)
    (h : (jsTrim s.input) = "" ∨ s.loading = true ∨ s.sessionId = none) :
    sendMessage s r = (s, []) := by
  apply sendMessage_blocked
  rcases h with h | h | h <;> simp [sendBlocked, h, sessionPresent]

/-- C3 witness: the theorem applied at a state whose draft is
whitespace-only. -/
theorem C3_precondition_noop_witness :
    sendMessage { demoState with input := "   " } FetchResult.err =
      ({ demoState with input := "   " }, []) :=
  C3_precondition_noop _ FetchResult.err (Or.inl (by decide))

/-- C4: when the preconditions hold, the synchronous part of `sendMessage`
(run before any response arrives) appends the user message, clears the
draft, sets the loading flag, and issues exactly one `/smart` request
whose body is `{ message, session_id }` with the current session id. -/
theorem C4_optimistic_update (s : WidgetState) (sid : String)
    (h : sendBlocked s = false) (hs : s.sessionId = some sid) :
    sendStart s =
      ({ s with messages := s.messages ++ [Message.mk Sender.user (some (jsTrim s.input))],
                input := "", loading := true },
       [SmartRequest.mk (jsTrim s.input) sid]) :=
  sendStart_not_blocked s sid h hs

/-- C4 witness: the theorem applied at `demoState`. -/
theorem C4_optimistic_update_witness :
    sendStart demoState =
      ({ demoState with
          messages := demoState.messages ++
            [Message.mk Sender.user (some (jsTrim demoState.input))],
          input := "", loading := true },
       [SmartRequest.mk (jsTrim demoState.input) "abc"]) :=
  C4_optimistic_update demoState "abc" (by decide) rfl

/-- C5: every operation — any post-mount step (toggle or a complete send
in any outcome), the optimistic half of a send, and session start — only
appends to the transcript: the previous transcript is a prefix of the new
one. -/
theorem C5_transcript_append_only :
    (∀ (s : WidgetState) (e : Event), s.messages <+: (step s e).messages) ∧
    (∀ s : WidgetState, s.messages <+: (sendStart s).1.messages) ∧
    (∀ (s : WidgetState) (r : FetchResult), s.messages <+: (startSession s r).messages) := by
  refine ⟨step_messages_grows, sendStart_messages_grows, ?_⟩
  intro s r
  cases r <;> simp [startSession]

/-- C6: session acquisition happens once at initialization (`initWidget`
applies `startSession` exactly once to the initial state).  On a response
carrying `session_id`, that id is stored, and with the id `"abc"` sending
becomes enabled (the session guard passes).  On failure the state is
untouched (only a log runs), and over every subsequent run of events the
session id remains absent and sending remains blocked. -/
theorem C6_session_acquisition :
    (∀ (s : WidgetState) (sid : String),
      (startSession s (FetchResult.ok [("session_id", sid)])).sessionId = some sid) ∧
    sessionPresent (initWidget (FetchResult.ok [("session_id", "abc")])).sessionId = true ∧
    (∀ s : WidgetState, startSession s FetchResult.err = s) ∧
    (∀ es : List Event, (run (initWidget FetchResult.err) es).sessionId = none) ∧
    (∀ es : List Event, sendBlocked (run (initWidget FetchResult.err) es) = true) := by
  refine ⟨?_, by decide, ?_, ?_, ?_⟩
  · intro s sid
    simp [startSession, List.lookup]
  · intro s
    simp [startSession]
  · intro es
    rw [run_sessionId]
    rfl
  · intro es
    have h : (run (initWidget FetchResult.err) es).sessionId = none := by
      rw [run_sessionId]; rfl
    simp [sendBlocked, h, sessionPresent]

/-- C7: toggling visibility is always permitted, flips only `isOpen`
(every other field is unchanged, and no request is modelled for it), and
toggling twice restores the whole state, transcript included. -/
theorem C7_toggle_involutive (s : WidgetState) :
    (toggleOpen s).isOpen = !s.isOpen ∧
    (toggleOpen s).sessionId = s.sessionId ∧
    (toggleOpen s).messages = s.messages ∧
    (toggleOpen s).input = s.input ∧
    (toggleOpen s).loading = s.loading ∧
    toggleOpen (toggleOpen s) = s := by
  refine ⟨rfl, rfl, rfl, rfl, rfl, ?_⟩
  simp [toggleOpen]

/-- C8: when a send is accepted, the appended user message and the
`message` field of the issued request both carry the trimmed draft. -/
theorem C8_trimmed_draft (s : WidgetState) (sid : String)
    (h : sendBlocked s = false) (hs : s.sessionId = some sid) :
    (sendStart s).1.messages.getLast? =
      some (Message.mk Sender.user (some (jsTrim s.input))) ∧
    (sendStart s).2 = [SmartRequest.mk (jsTrim s.input) sid] := by
  rw [sendStart_not_blocked s sid h hs]
  constructor
  · simp
  · rfl

/-- C8 witness: the theorem applied at a state whose draft carries
leading and trailing whitespace. -/
theorem C8_trimmed_draft_witness :
    (sendStart { demoState with input := "  hello  " }).1.messages.getLast? =
      some (Message.mk Sender.user (some ((jsTrim "  hello  ")))) ∧
    (sendStart { demoState with input := "  hello  " }).2 =
      [SmartRequest.mk ((jsTrim "  hello  ")) "abc"] :=
  C8_trimmed_draft { demoState with input := "  hello  " } "abc" (by decide) rfl

/-- C9: the initial transcript is exactly the greeting message, and after
any session-start outcome and any run of post-mount events — including
the optimistic half of a further send — the transcript still starts with
the greeting. -/
theorem C9_greeting_first :
    initialState.messages = [greetingMsg] ∧
    (∀ (r : FetchResult) (es : List Event),
      (run (initWidget r) es).messages.head? = some greetingMsg) ∧
    (∀ (r : FetchResult) (es : List Event),
      (sendStart (run (initWidget r) es)).1.messages.head? = some greetingMsg) := by
  have hinit : ∀ r : FetchResult, (initWidget r).messages.head? = some greetingMsg := by
    intro r
    cases r <;> rfl
  have hrun : ∀ (r : FetchResult) (es : List Event),
      (run (initWidget r) es).messages.head? = some greetingMsg := by
    intro r es
    exact run_head es (initWidget r) greetingMsg (hinit r)
  refine ⟨rfl, hrun, ?_⟩
  intro r es
  set t := run (initWidget r) es with ht
  obtain ⟨u, hu⟩ : t.messages <+: (sendStart t).1.messages :=
    sendStart_messages_grows t
  have h := hrun r es
  rw [← hu]
  cases hm : t.messages with
  | nil => rw [hm] at h; simp at h
  | cons a l => rw [hm] at h; simpa using h

/-- C10: a `/smart` response that parses but lacks a `reply` field does
not take the failure branch: the appended bot message carries the missing
value (`undefined`, modelled `none`), which differs from the fixed
fallback message, and loading is cleared. -/
theorem C10_missing_reply_undefined (s : WidgetState)
    (body : List (String × String)) (h : sendBlocked s = false)
    (hb : body.lookup "reply" = none) :
    (sendMessage s (FetchResult.ok body)).1.messages =
      s.messages ++ [Message.mk Sender.user (some (jsTrim s.input)),
                     Message.mk Sender.bot none] ∧
    (sendMessage s (FetchResult.ok body)).1.loading = false ∧
    Message.mk Sender.bot (none : Option String) ≠
      Message.mk Sender.bot (some fallbackText) := by
  obtain ⟨-, -, hp⟩ := (sendBlocked_false_iff s).1 h
  obtain ⟨sid, hs, -⟩ := sessionPresent_some _ hp
  rw [sendMessage_not_blocked s sid h hs]
  refine ⟨?_, ?_, by simp⟩
  · simp [sendFinish, hb]
  · simp [sendFinish]

/-- C10 witness: the theorem applied at `demoState` with an error body
`{status:"500"}` that has no `reply` field. -/
theorem C10_missing_reply_undefined_witness :
    (sendMessage demoState (FetchResult.ok [("status", "500")])).1.messages =
      demoState.messages ++ [Message.mk Sender.user (some (jsTrim demoState.input)),
                             Message.mk Sender.bot none] ∧
    (sendMessage demoState (FetchResult.ok [("status", "500")])).1.loading = false ∧
    Message.mk Sender.bot (none : Option String) ≠
      Message.mk Sender.bot (some fallbackText) :=
  C10_missing_reply_undefined demoState [("status", "500")] (by decide) (by decide)

end ChatBot
